import Mathlib

/-
Verification of the GlueLinks API backend against its natural-language
specification.  The Python modules under `app/` are shallowly embedded:
pydantic models become structures, the Kubernetes API and the cache become
oracle records of functions, raised exceptions become `Except`/`Option`
results, and the string processing (regex suffix stripping, URL
percent-encoding, JSON serialization) is reimplemented faithfully from the
source.
-/

namespace GlueLinks

/-! ### Generic string helpers (Python `str` operations on `List Char`) -/

/-- Predicate `startsWithL l pat`: character list `l` starts with `pat`. -/
def startsWithL : List Char → List Char → Bool
  | _, [] => true
  | [], _ :: _ => false
  | a :: as, b :: bs => a == b && startsWithL as bs

/-- Substring containment on character lists (Python `needle in hay`). -/
def containsSub (needle : List Char) : List Char → Bool
  | [] => startsWithL [] needle
  | c :: t => startsWithL (c :: t) needle || containsSub needle t

/-- Python `needle in hay` for strings. -/
def strContains (hay needle : String) : Bool :=
  containsSub needle.data hay.data

/-- Split a character list at the first occurrence of `c`;
`none` when `c` does not occur. -/
def splitAtFirst (c : Char) : List Char → Option (List Char × List Char)
  | [] => none
  | x :: xs =>
    if x == c then some ([], xs)
    else
      match splitAtFirst c xs with
      | none => none
      | some (a, b) => some (x :: a, b)

/-- Python `s.split(c, 1)`: a one- or two-element list. -/
def pySplit1 (c : Char) (s : String) : List String :=
  match splitAtFirst c s.data with
  | none => [s]
  | some (a, b) => [String.mk a, String.mk b]

/-- Python `s.split(c)` on character lists (always a nonempty result;
`[[]]` for the empty string). -/
def splitChar (c : Char) : List Char → List (List Char)
  | [] => [[]]
  | x :: xs =>
    if x == c then [] :: splitChar c xs
    else
      match splitChar c xs with
      | [] => [[x]]
      | h :: t => (x :: h) :: t

/-- Python `s.split(c)` for strings. -/
def pySplitAll (c : Char) (s : String) : List String :=
  (splitChar c s.data).map String.mk

/-- Python `s.startswith(pre)` for strings. -/
def pyStartsWith (s pre : String) : Bool :=
  startsWithL s.data pre.data

/-- Python `d.get(k, dflt)` over an association-list model of a dict. -/
def dictGet (d : List (String × String)) (k dflt : String) : String :=
  match d.find? (fun p => p.1 == k) with
  | some p => p.2
  | none => dflt

/-! ### `SERVICE_NAME_REGEX` (k8s_client.py lines 10-13)

The pattern is
`^(?P<service_prefix>.+?)(-[0-9a-f]{9,}(-[a-z0-9]{4,})?|-[0-9]+|-[a-z0-9]{4,6})?$`.
Because the only thing following the optional group is `$`, a match at a
given split point exists iff the remainder is empty or is matched *in
full* by one of the three alternatives; the lazy `.+?` makes the capture
the shortest nonempty prefix at which this succeeds. -/

/-- Character class `[0-9a-f]`. -/
def isHexDigit (c : Char) : Bool :=
  decide (('0' ≤ c ∧ c ≤ '9') ∨ ('a' ≤ c ∧ c ≤ 'f'))

/-- Character class `[a-z0-9]`. -/
def isLowerAlnum (c : Char) : Bool :=
  decide (('a' ≤ c ∧ c ≤ 'z') ∨ ('0' ≤ c ∧ c ≤ '9'))

/-- Character class `[0-9]`. -/
def isDigitC (c : Char) : Bool :=
  decide ('0' ≤ c ∧ c ≤ '9')

/-- Full-string match of the alternative `-[0-9a-f]{9,}(-[a-z0-9]{4,})?`.
The optional tail begins with `-`, which is not a hex digit, so the hex
segment is either the whole remainder or the maximal leading hex run. -/
def altHex (s : List Char) : Bool :=
  match s with
  | '-' :: rest =>
    let run := rest.takeWhile isHexDigit
    let tl := rest.drop run.length
    if tl.isEmpty then decide (9 ≤ run.length)
    else
      match tl with
      | '-' :: cs => decide (9 ≤ run.length) && decide (4 ≤ cs.length) && cs.all isLowerAlnum
      | _ => false
  | _ => false

/-- Full-string match of the alternative `-[0-9]+`. -/
def altNum (s : List Char) : Bool :=
  match s with
  | '-' :: rest => !rest.isEmpty && rest.all isDigitC
  | _ => false

/-- Full-string match of the alternative `-[a-z0-9]{4,6}`. -/
def altShort (s : List Char) : Bool :=
  match s with
  | '-' :: rest => decide (4 ≤ rest.length) && decide (rest.length ≤ 6) && rest.all isLowerAlnum
  | _ => false

/-- Full-string match of the optional suffix group. -/
def suffixMatch (s : List Char) : Bool :=
  altHex s || altNum s || altShort s

/-- Walk the lazy split points left to right: `pre` is the candidate
capture, the argument the remainder; stop at the first point where the
remainder is empty or matches the suffix group. -/
def regexScan (pre : List Char) : List Char → List Char
  | [] => pre
  | c :: rest =>
    if suffixMatch (c :: rest) then pre
    else regexScan (pre ++ [c]) rest

/-- Model of `K8sClient.extract_service_name` (k8s_client.py lines 46-62): the
`service_prefix` capture of `SERVICE_NAME_REGEX.match(app_name)`; the
input unchanged when the regex does not match (only for `""`, since
`.+?` needs one character and every longer split can end at `$`). -/
def extract_service_name (app_name : String) : String :=
  match app_name.data with
  | [] => app_name
  | c :: rest => String.mk (regexScan [c] rest)

example : extract_service_name "taco-backend-prod" = "taco-backend" := by decide
example : extract_service_name "taco-backend-prod-677bfb55b7-942nr" = "taco-backend-prod" := by decide
example : extract_service_name "my-app" = "my-app" := by decide
example : extract_service_name "x" = "x" := by decide
example : extract_service_name "web-123" = "web" := by decide
example : extract_service_name "app-abc" = "app-abc" := by decide
example : extract_service_name "a-bcde" = "a" := by decide
example : extract_service_name "" = "" := by decide

/-! ### `urllib.parse.quote` and `json.dumps` string machinery

`links_generator.py` builds its URLs with `urllib.parse.quote` (default
`safe="/"`) and, for the Traces category, `json.dumps` of a fixed dict
(default separators, `ensure_ascii=True`).  Both are reimplemented here
byte- and character-faithfully. -/

/-- Lowercase hex digit. -/
def hexChar (n : Nat) : Char :=
  if n < 10 then Char.ofNat ('0'.toNat + n) else Char.ofNat ('a'.toNat + (n - 10))

/-- Uppercase hex digit. -/
def hexCharU (n : Nat) : Char :=
  if n < 10 then Char.ofNat ('0'.toNat + n) else Char.ofNat ('A'.toNat + (n - 10))

/-- Two uppercase hex digits (as in `%7B`). -/
def hex2U (n : Nat) : String :=
  String.mk [hexCharU (n / 16 % 16), hexCharU (n % 16)]

/-- Four lowercase hex digits (as in a JSON unicode escape). -/
def hex4L (n : Nat) : String :=
  String.mk [hexChar (n / 4096 % 16), hexChar (n / 256 % 16), hexChar (n / 16 % 16), hexChar (n % 16)]

/-- UTF-8 encoding of one code point, bytes as `Nat`. -/
def utf8Bytes (c : Char) : List Nat :=
  let n := c.toNat
  if n < 128 then [n]
  else if n < 2048 then [192 + n / 64, 128 + n % 64]
  else if n < 65536 then [224 + n / 4096, 128 + n / 64 % 64, 128 + n % 64]
  else [240 + n / 262144, 128 + n / 4096 % 64, 128 + n / 64 % 64, 128 + n % 64]

/-- Safe characters of `urllib.parse.quote`: its unreserved set plus the default `safe="/"`. -/
def quoteSafeChar (c : Char) : Bool :=
  decide (('A' ≤ c ∧ c ≤ 'Z') ∨ ('a' ≤ c ∧ c ≤ 'z') ∨ ('0' ≤ c ∧ c ≤ '9')) ||
    c == '_' || c == '.' || c == '-' || c == '~' || c == '/'

/-- Model of `urllib.parse.quote(s)` with the default `safe="/"`: percent-encode
every non-safe character's UTF-8 bytes with uppercase hex. -/
def pyQuote (s : String) : String :=
  s.data.foldl
    (fun acc c =>
      if quoteSafeChar c then acc.push c
      else (utf8Bytes c).foldl (fun a b => a ++ "%" ++ hex2U b) acc)
    ""

/-- One character of `json.dumps`'s ASCII string escaping
(`ensure_ascii=True`, surrogate pairs above the BMP). -/
def jsonEscapeChar (c : Char) : String :=
  let n := c.toNat
  if c == '\\' then "\\\\"
  else if c == '"' then "\\\""
  else if n == 8 then "\\b"
  else if n == 9 then "\\t"
  else if n == 10 then "\\n"
  else if n == 12 then "\\f"
  else if n == 13 then "\\r"
  else if n < 32 then "\\u" ++ hex4L n
  else if n < 127 then String.singleton c
  else if n < 65536 then "\\u" ++ hex4L n
  else "\\u" ++ hex4L (55296 + (n - 65536) / 1024) ++ "\\u" ++ hex4L (56320 + (n - 65536) % 1024)

/-- Model of `json.dumps` escaping of a string body. -/
def jsonEscape (s : String) : String :=
  String.join (s.data.map jsonEscapeChar)

/-- A serialized JSON string literal. -/
def jsonStr (s : String) : String :=
  "\"" ++ jsonEscape s ++ "\""

/-! ### Data model (models.py) -/

/-- Model of `LinkModel` (models.py lines 7-10). -/
structure LinkModel where
  label : String
  url : String
deriving DecidableEq, Repr

/-- Model of `CategoryModel` (models.py lines 13-20).  `status` carries the literal
strings `"ok"`, `"empty"`, `"error"` produced by the builders; `message`
defaults to `None` and `links` to `[]` exactly as in the pydantic model. -/
structure CategoryModel where
  id : String
  label : String
  icon : String
  status : String
  message : Option String := none
  links : List LinkModel := []
deriving DecidableEq, Repr

/-- Model of `ResourceMetadata` (models.py lines 23-28). -/
structure ResourceMetadata where
  argocd_app : Bool
  deployment : Bool
  pods_found : Nat
  external_secrets_found : Nat
deriving DecidableEq, Repr

/-- Model of `ResponseMetadata` (models.py lines 31-35).  Its only fields are
`generated_at`, `version` and `resources`; timestamps are abstracted as
`Nat` instants. -/
structure ResponseMetadata where
  generated_at : Nat
  version : String := "v1"
  resources : ResourceMetadata
deriving DecidableEq, Repr

/-- Model of `LinksResponse` (models.py lines 38-45).  `nsName` embeds the model's
`namespace` field (a keyword in Lean).  Note the model has *no*
`generated_at` field of its own, and `last_updated` is required. -/
structure LinksResponse where
  app_name : String
  nsName : String
  service_name : String
  last_updated : Nat
  categories : List CategoryModel
  metadata : ResponseMetadata
deriving DecidableEq, Repr

/-- The Python exception classes that the embedded request pipeline can
raise. -/
inductive PyErr where
  | attributeError
  | validationError
deriving DecidableEq, Repr

/-! ### Kubernetes resource shapes, as far as the code reads them -/

/-- Model of `V1Pod.metadata` as used (only `.name`). -/
structure PodMeta where
  name : String
deriving DecidableEq, Repr

/-- A `V1Pod` as used by the code. -/
structure Pod where
  metadata : PodMeta
deriving DecidableEq, Repr

/-- Model of `V1Deployment.metadata` as used: `.name` and `.annotations`
(`None` or a dict). -/
structure DeploymentMeta where
  name : String
  annotations : Option (List (String × String))
deriving DecidableEq, Repr

/-- A `V1Deployment` as used by the code. -/
structure Deployment where
  metadata : DeploymentMeta
deriving DecidableEq, Repr

/-- Model of `dataFrom[i].extract` of an ExternalSecret manifest. -/
structure ESExtract where
  key : Option String
deriving DecidableEq, Repr

/-- One `dataFrom` entry of an ExternalSecret manifest. -/
structure ESDataFrom where
  extract : Option ESExtract
deriving DecidableEq, Repr

/-- Model of `spec` of an ExternalSecret manifest, as far as it is read. -/
structure ESSpec where
  dataFrom : Option (List ESDataFrom)
deriving DecidableEq, Repr

/-- Model of `metadata` of an ExternalSecret manifest, as far as it is read. -/
structure ESMeta where
  name : Option String
  annotations : Option (List (String × String))
deriving DecidableEq, Repr

/-- An ExternalSecret manifest (a parsed dict: every level optional). -/
structure ExternalSecret where
  metadata : Option ESMeta
  spec : Option ESSpec
deriving DecidableEq, Repr

/-- The `helm` section of an ArgoCD Application source. -/
structure HelmSection where
  valueFiles : Option (List String)
deriving DecidableEq, Repr

/-- One entry of `spec.sources` of an ArgoCD Application manifest. -/
structure AppSource where
  ref : Option String
  repoURL : Option String
  targetRevision : Option String
  helm : Option HelmSection
deriving DecidableEq, Repr

/-- Model of `spec.destination`; `destNamespace` embeds its `namespace` key. -/
structure AppDestination where
  destNamespace : Option String
deriving DecidableEq, Repr

/-- Model of `spec` of an ArgoCD Application manifest, as far as it is read. -/
structure AppSpec where
  destination : Option AppDestination
  sources : Option (List AppSource)
deriving DecidableEq, Repr

/-- An ArgoCD Application manifest (a parsed dict). -/
structure ArgoApp where
  spec : Option AppSpec
deriving DecidableEq, Repr

/-- Outcome of one Kubernetes API call: a value, or an `ApiException`
carrying an HTTP status. -/
inductive ApiResult (α : Type) where
  | ok (val : α)
  | apiErr (status : Nat)
deriving DecidableEq, Repr

/-- The cluster, as the oracle behind the Kubernetes SDK calls the code
makes: custom-object get by `(namespace, name)`, deployment listing by
namespace, pod listing by `(namespace, label_selector)`, ExternalSecret
listing by namespace. -/
structure ClusterState where
  getApp : String → String → ApiResult ArgoApp
  listDeployments : String → ApiResult (List Deployment)
  listPods : String → String → ApiResult (List Pod)
  listExternalSecrets : String → ApiResult (List ExternalSecret)

/-- The configuration values `LinksGenerator` reads (after the
`rstrip("/")` of its constructor) plus `tempo_datasource_uid`, which
`_generate_traces_category` reads from the settings. -/
structure GenCfg where
  grafana_base_url : String
  vault_base_url : String
  captain_domain : String
  max_rows : Nat
  tempo_datasource_uid : String
deriving DecidableEq, Repr

/-- Python truthiness of an optional string (`if not values_repo`). -/
def strTruthy (o : Option String) : Bool :=
  match o with
  | none => false
  | some s => !(s == "")

/-! ### K8sClient (k8s_client.py) -/

/-- The probe loop of `get_argocd_application`: try each namespace in
order; a `404` continues to the next; any other `ApiException` is logged
(`argocd_app_fetch_failed`) and the loop likewise proceeds. -/
def tryNamespaces (st : ClusterState) (name : String) : List String → Option ArgoApp
  | [] => none
  | ns :: rest =>
    match st.getApp ns name with
    | .ok app => some app
    | .apiErr status =>
      if status == 404 then tryNamespaces st name rest
      else tryNamespaces st name rest

/-- Model of `K8sClient.get_argocd_application` (lines 64-92): probe
`glueops-core`, `argocd`, then the caller's namespace; `None` when no
probe succeeds. -/
def get_argocd_application (st : ClusterState) (name nsArg : String) : Option ArgoApp :=
  tryNamespaces st name ["glueops-core", "argocd", nsArg]

/-- Model of `K8sClient.get_deployment` (lines 94-119): list the namespace's
deployments and return the first whose
`argocd.argoproj.io/tracking-id` annotation starts with
`"<name>:apps/Deployment:<namespace>/"`; `None` on an `ApiException` or
when nothing matches. -/
def get_deployment (st : ClusterState) (name nsArg : String) : Option Deployment :=
  match st.listDeployments nsArg with
  | .apiErr _ => none
  | .ok items =>
    let trackingIdPre := name ++ ":apps/Deployment:" ++ nsArg ++ "/"
    items.find? (fun d =>
      let annotations := d.metadata.annotations.getD []
      pyStartsWith (dictGet annotations "argocd.argoproj.io/tracking-id" "") trackingIdPre)

/-- Model of `K8sClient.get_first_pod` (lines 121-139): list pods by the label
selector `app.kubernetes.io/name=<deployment_name>` and return the first,
`None` when the list is empty or the call raises an `ApiException`. -/
def get_first_pod (st : ClusterState) (deployment_name nsArg : String) : Option Pod :=
  match st.listPods nsArg ("app.kubernetes.io/name=" ++ deployment_name) with
  | .apiErr _ => none
  | .ok items => items.head?

/-- Model of `K8sClient.get_external_secrets` (lines 141-180): list the
namespace's ExternalSecrets and keep those whose tracking annotation
starts with `"<app_name>:external-secrets.io/ExternalSecret:<namespace>/"`;
any `ApiException` (the CRD-absent `404` included) yields `[]`. -/
def get_external_secrets (st : ClusterState) (app_name nsArg : String) : List ExternalSecret :=
  match st.listExternalSecrets nsArg with
  | .apiErr _ => []
  | .ok items =>
    let trackingIdPre := app_name ++ ":external-secrets.io/ExternalSecret:" ++ nsArg ++ "/"
    items.filter (fun s =>
      let annotations := (s.metadata.bind (fun m => m.annotations)).getD []
      pyStartsWith (dictGet annotations "argocd.argoproj.io/tracking-id" "") trackingIdPre)

/-- Model of `parts[parts.index("apps") + 1]` with `ValueError`/`IndexError` as
`none`: the component following the first `"apps"` component. -/
def appsNext? (parts : List String) : Option String :=
  match parts.findIdx? (fun p => p == "apps") with
  | none => none
  | some i => parts[i + 1]?

/-- The `for value_file in value_files` loop of
`parse_github_repo_from_argocd_app` (lines 220-236): the first file
containing both `"/apps/"` and `"/base/"` whose `apps` component has a
successor wins; `ValueError`/`IndexError` continue the loop; exhaustion
falls through to `return None, None`. -/
def scanValueFiles (values_repo : String) : List String → Option String × Option String
  | [] => (none, none)
  | vf :: rest =>
    if strContains vf "/apps/" && strContains vf "/base/" then
      match appsNext? (pySplitAll '/' vf) with
      | some app_name_part => (some values_repo, some ("apps/" ++ app_name_part))
      | none => scanValueFiles values_repo rest
    else scanValueFiles values_repo rest

/-- Model of `K8sClient.parse_github_repo_from_argocd_app` (lines 182-243). -/
def parse_github_repo_from_argocd_app (argocd_app : ArgoApp) : Option String × Option String :=
  let sources := (argocd_app.spec.bind (fun s => s.sources)).getD []
  let values_repo : Option String :=
    match sources.find? (fun s => s.ref == some "values") with
    | some s => s.repoURL
    | none => none
  match values_repo with
  | none => (none, none)
  | some vr =>
    if vr == "" then (none, none)
    else
      match sources.find? (fun s => (s.helm.map (fun h => h.valueFiles.isSome)).getD false) with
      | none => (none, none)
      | some helm_source =>
        scanValueFiles vr ((helm_source.helm.bind (fun h => h.valueFiles)).getD [])

/-! ### Pings and the readiness endpoint (cache.py, main.py) -/

/-- Model of `K8sClient.ping` (k8s_client.py lines 38-44): `True` iff
`get_api_resources()` returns without raising. -/
def k8s_ping (api : Except Unit Unit) : Bool :=
  match api with
  | .ok _ => true
  | .error _ => false

/-- Model of `CacheManager.ping` (cache.py lines 42-47): the backend call's
boolean, `False` when the call raises.  It never raises itself. -/
def cache_ping (backend : Except Unit Bool) : Bool :=
  match backend with
  | .ok b => b
  | .error _ => false

/-- The body of the `/api/v1/ready` response. -/
structure ReadyResponseModel where
  ready : Bool
  cacheCheck : Bool
  kubernetesCheck : Bool
deriving DecidableEq, Repr

/-- Model of `readiness_check`'s handler logic (main.py lines 68-96): each check
becomes `True` iff the corresponding `ping()` *call* returns without
raising — the boolean the ping returns is discarded — and
`ready = all(checks.values())`. -/
def readiness_handler (cacheCall k8sCall : Except Unit Bool) : ReadyResponseModel :=
  let cacheCheck := match cacheCall with | .ok _ => true | .error _ => false
  let k8sCheck := match k8sCall with | .ok _ => true | .error _ => false
  { ready := cacheCheck && k8sCheck, cacheCheck := cacheCheck, kubernetesCheck := k8sCheck }

/-- The readiness endpoint composed with the two ping implementations;
since neither ping ever raises, the handler always observes `.ok`. -/
def readiness_check (cacheBackend : Except Unit Bool) (k8sApi : Except Unit Unit) : ReadyResponseModel :=
  readiness_handler (.ok (cache_ping cacheBackend)) (.ok (k8s_ping k8sApi))

/-! ### Category builders (quick_links.py, links_generator.py) -/

/-- Model of `generate_quick_links_category` (quick_links.py lines 11-44). -/
def generate_quick_links_category (captain_domain : String) : CategoryModel :=
  { id := "quick-links"
    label := "Quick Links"
    icon := "🌟"
    status := "ok"
    links := [
      { label := "ℹ️ Cluster Info", url := "https://cluster-info." ++ captain_domain },
      { label := "📚 GlueOps Docs", url := "https://docs.glueops.dev" },
      { label := "📞 +1-877-GLUEOPS", url := "tel:+18774583677" },
      { label := "📧 support@glueops.dev", url := "mailto:support@glueops.dev" } ] }

/-- Model of `_generate_apm_category` (links_generator.py lines 97-115). -/
def generate_apm_category (cfg : GenCfg) (service_name : String) : CategoryModel :=
  let url := cfg.grafana_base_url ++
    "/d/opentelemetry-apm/apm-overview?orgId=1&refresh=30s&from=now-1h&to=now&var-app=" ++
    pyQuote service_name ++ "&var-route=All"
  { id := "apm", label := "APM Overview", icon := "📊", status := "ok",
    links := [{ label := service_name, url := url }] }

/-- Model of `_generate_namespace_category` (links_generator.py lines 117-135). -/
def generate_namespace_category (cfg : GenCfg) (nsArg : String) : CategoryModel :=
  let url := cfg.grafana_base_url ++
    "/d/ee58kcteeir5sf/kubernetes-overview?orgId=1&var-namespace=" ++ pyQuote nsArg
  { id := "namespace", label := "Kubernetes Overview", icon := "📦", status := "ok",
    links := [{ label := nsArg, url := url }] }

/-- Model of `_generate_pod_category` (links_generator.py lines 137-166). -/
def generate_pod_category (cfg : GenCfg) (pods : List Pod) (nsArg : String) : CategoryModel :=
  if pods.isEmpty then
    { id := "pod", label := "Pod Metrics", icon := "🔲", status := "empty",
      message := some "No pods currently running", links := [] }
  else
    let links := pods.map (fun pod =>
      let pod_name := pod.metadata.name
      let url := cfg.grafana_base_url ++
        "/d/ce60j8f8umhhcc/kubernetes-pod-overview?orgId=1&refresh=10s&from=now-1h&to=now&var-datasource=default&var-cluster=&var-namespace=" ++
        pyQuote nsArg ++ "&var-pod=" ++ pyQuote pod_name
      ({ label := pod_name, url := url } : LinkModel))
    { id := "pod", label := "Pod Metrics", icon := "🔲", status := "ok", links := links }

/-- Model of `_generate_logs_category` (links_generator.py lines 168-191). -/
def generate_logs_category (cfg : GenCfg) (service_name : String) : CategoryModel :=
  let url := cfg.grafana_base_url ++
    "/a/grafana-lokiexplore-app/explore/service/" ++ pyQuote service_name ++
    "/logs?patterns=%5B%5D&from=now-15m&to=now&var-filters=service_name%7C%3D%7C" ++
    pyQuote service_name ++
    "&var-fields=&var-levels=&var-metadata=&var-patterns=&var-lineFilterV2=&var-lineFilters=&timezone=browser&var-all-fields=&urlColumns=%5B%5D&visualizationType=%22logs%22&displayedFields=%5B%5D&sortOrder=%22Descending%22&wrapLogMessage=false"
  { id := "logs", label := "Logs", icon := "📋", status := "ok",
    links := [{ label := service_name, url := url }] }

/-- Model of `json.dumps(panes_data)` of `_generate_traces_category`
(links_generator.py lines 202-233): the dict literal serialized with the
default separators in insertion order; when `tempo_uid` is truthy the two
`datasource` entries have been appended to their dicts before dumping. -/
def panesJson (tempo_uid service_name : String) : String :=
  let filters :=
    "[\x7b\"id\": \"service-name\", \"tag\": \"service.name\", \"operator\": \"=\", \"scope\": \"resource\", \"value\": [" ++
      jsonStr service_name ++ "], \"valueType\": \"string\"\x7d]"
  let queryZero :=
    "\x7b\"refId\": \"A\", \"queryType\": \"traceqlSearch\", \"limit\": 20, \"tableType\": \"traces\", \"filters\": " ++
      filters ++
      (if tempo_uid == "" then ""
       else ", \"datasource\": \x7b\"type\": \"tempo\", \"uid\": " ++ jsonStr tempo_uid ++ "\x7d") ++
      "\x7d"
  let rangeJson := "\x7b\"from\": \"now-1h\", \"to\": \"now\"\x7d"
  "\x7b\"trc\": \x7b\"queries\": [" ++ queryZero ++ "], \"range\": " ++ rangeJson ++
    (if tempo_uid == "" then "" else ", \"datasource\": " ++ jsonStr tempo_uid) ++ "\x7d\x7d"

/-- Model of `_generate_traces_category` (links_generator.py lines 193-251);
`tempo_datasource_uid` comes from the settings it loads. -/
def generate_traces_category (cfg : GenCfg) (service_name : String) : CategoryModel :=
  let panes_encoded := pyQuote (panesJson cfg.tempo_datasource_uid service_name)
  let url := cfg.grafana_base_url ++ "/explore?schemaVersion=1&panes=" ++ panes_encoded ++ "&orgId=1"
  { id := "traces", label := "Traces", icon := "🔍", status := "ok",
    links := [{ label := service_name, url := url }] }

/-- Per-key body of `_generate_vault_category`'s loop
(links_generator.py lines 272-286): skip an empty key; split once on
`/`; a two-part split contributes one link whose path is the second
part. -/
def vaultLinkOfKey (vault_base_url key : String) : List LinkModel :=
  if key == "" then []
  else
    match pySplit1 '/' key with
    | [_, secret_path] =>
      [{ label := secret_path,
         url := vault_base_url ++ "/ui/vault/secrets/secret/show/" ++ secret_path }]
    | _ => []

/-- The link-collection loop of `_generate_vault_category`
(links_generator.py lines 265-286): for every `dataFrom[].extract.key`
that is nonempty and splits in two on the first `/`, one link whose path
is the remainder after the first `/`. -/
def vaultLinks (vault_base_url : String) (external_secrets : List ExternalSecret) : List LinkModel :=
  external_secrets.flatMap (fun secret =>
    let data_from := (secret.spec.bind (fun sp => sp.dataFrom)).getD []
    data_from.flatMap (fun data_source =>
      vaultLinkOfKey vault_base_url ((data_source.extract.bind (fun e => e.key)).getD "")))

/-- Model of `_generate_vault_category` (links_generator.py lines 253-304). -/
def generate_vault_category (cfg : GenCfg) (external_secrets : List ExternalSecret) : CategoryModel :=
  if external_secrets.isEmpty then
    { id := "vault", label := "Vault Secrets", icon := "🔐", status := "empty",
      message := some "No ExternalSecrets configured for this application", links := [] }
  else
    let links := vaultLinks cfg.vault_base_url external_secrets
    if links.isEmpty then
      { id := "vault", label := "Vault Secrets", icon := "🔐", status := "empty",
        message := some "No secret paths found in ExternalSecrets", links := [] }
    else
      { id := "vault", label := "Vault Secrets", icon := "🔐", status := "ok", links := links }

/-- The branch lookup of `_generate_iaac_category` (links_generator.py
lines 330-338): `targetRevision` of the first `ref == "values"` source,
default `"main"`. -/
def iaacBranch (sources : List AppSource) : String :=
  match sources.find? (fun s => s.ref == some "values") with
  | some s => s.targetRevision.getD "main"
  | none => "main"

/-- Model of `_generate_iaac_category` (links_generator.py lines 306-354).  A
found Application manifest is a nonempty dict, hence truthy. -/
def generate_iaac_category (argocd_app : Option ArgoApp) : CategoryModel :=
  match argocd_app with
  | none =>
    { id := "iaac", label := "IaaC", icon := "⚙️", status := "error",
      message := some "ArgoCD application not found", links := [] }
  | some app =>
    let parsed := parse_github_repo_from_argocd_app app
    let repo_url := parsed.1
    let app_path := parsed.2
    if !strTruthy repo_url || !strTruthy app_path then
      { id := "iaac", label := "IaaC", icon := "⚙️", status := "error",
        message := some "Unable to parse deployment configuration from ArgoCD manifest", links := [] }
    else
      let sources := (app.spec.bind (fun s => s.sources)).getD []
      let branch := iaacBranch sources
      let github_url := repo_url.getD "" ++ "/tree/" ++ branch ++ "/" ++ app_path.getD ""
      { id := "iaac", label := "IaaC", icon := "⚙️", status := "ok",
        links := [{ label := "Deployment Configuration", url := github_url }] }

/-! ### `LinksGenerator.generate_links` (links_generator.py lines 31-95) -/

/-- Lines 44-48 of `generate_links`: the Application's
`spec.destination.namespace` when present, the caller's namespace at any
missing level and when no Application was found (a found manifest is a
nonempty dict, hence truthy). -/
def targetNamespace (argocd_app : Option ArgoApp) (nsArg : String) : String :=
  match argocd_app with
  | some app =>
    ((app.spec.bind (fun s => s.destination)).bind (fun d => d.destNamespace)).getD nsArg
  | none => nsArg

/-- Models the pydantic constructor call `LinksResponse(app_name=...,
namespace=..., service_name=..., categories=..., metadata=...)` at
links_generator.py lines 89-95.  `LinksResponse.last_updated` is a
required field (models.py line 43) and no `last_updated` keyword is
passed, so pydantic raises a `ValidationError` whatever the argument
values are. -/
def linksResponseCall (_app_name _nsArg _service_name : String)
    (_categories : List CategoryModel) (_metadata : ResponseMetadata) :
    Except PyErr LinksResponse :=
  .error .validationError

/-- Model of `LinksGenerator.generate_links` (links_generator.py lines 31-95).
The `ResponseMetadata(...)` call passes extra `last_updated` and
`max_rows` keywords that the pydantic model does not declare; pydantic's
default `extra="ignore"` drops them silently, so only `generated_at`,
`version` and `resources` are kept.  At line 55 the code calls
`self.k8s_client.get_pods(...)`, an attribute `K8sClient` does not
define, so an `AttributeError` is raised whenever a deployment was
found. -/
def generate_links (st : ClusterState) (cfg : GenCfg) (now : Nat)
    (app_name nsArg : String) : Except PyErr LinksResponse :=
  let service_name := app_name
  let argocd_app := get_argocd_application st app_name nsArg
  let target_namespace := targetNamespace argocd_app nsArg
  let deployment := get_deployment st app_name target_namespace
  let pods : List Pod := []
  if deployment.isSome then
    .error .attributeError
  else
    let external_secrets := get_external_secrets st app_name target_namespace
    let metadata : ResponseMetadata :=
      { generated_at := now
        version := "v1"
        resources :=
          { argocd_app := argocd_app.isSome
            deployment := deployment.isSome
            pods_found := pods.length
            external_secrets_found := external_secrets.length } }
    let categories :=
      [ generate_quick_links_category cfg.captain_domain,
        generate_apm_category cfg service_name,
        generate_namespace_category cfg target_namespace,
        generate_pod_category cfg pods target_namespace,
        generate_logs_category cfg service_name,
        generate_traces_category cfg service_name,
        generate_vault_category cfg external_secrets,
        generate_iaac_category argocd_app ]
    linksResponseCall app_name target_namespace service_name categories metadata

/-! ### `get_application_links` (main.py lines 99-171) -/

/-- The observable outcome of a `/api/v1/applications/.../links`
request. -/
inductive LinksResult where
  | mock (fixtureName : String)
  | httpError (status : Nat)
  | cached (v : LinksResponse)
  | generated (v : LinksResponse)
deriving DecidableEq, Repr

/-- The cache key of main.py line 144. -/
def cacheKey (nsArg app_name : String) : String :=
  "gluelinks:v1:" ++ nsArg ++ ":" ++ app_name

/-- Model of `get_application_links` (main.py lines 99-171): mock short-circuit;
header parsing — `split(":", 1)` raises `ValueError` exactly when the
header has no colon — then the app-name match check, both rejected with
an `HTTPException(400)`; cache lookup; on a miss the generator runs with
any exception turned into a 500.  The cache is an oracle from keys to
stored (already deserialized) responses. -/
def get_application_links (use_mock_data : Bool) (default_mock_fixture : String)
    (cache : String → Option LinksResponse) (st : ClusterState) (cfg : GenCfg) (now : Nat)
    (app_name header : String) : LinksResult :=
  if use_mock_data then .mock default_mock_fixture
  else
    match splitAtFirst ':' header.data with
    | none => .httpError 400
    | some (nsChars, appChars) =>
      let nsArg := String.mk nsChars
      let header_app_name := String.mk appChars
      if app_name != header_app_name then .httpError 400
      else
        match cache (cacheKey nsArg app_name) with
        | some v => .cached v
        | none =>
          match generate_links st cfg now app_name nsArg with
          | .ok r => .generated r
          | .error _ => .httpError 500

/-! ### Concrete fixtures used by the claim theorems and witnesses -/

/-- A demo configuration. -/
def cfgDemo : GenCfg :=
  { grafana_base_url := "https://grafana.example.com"
    vault_base_url := "https://vault.example.com"
    captain_domain := "example.com"
    max_rows := 4
    tempo_datasource_uid := "" }

/-- A cluster where every Application probe answers 404 and every listing
is empty. -/
def stNotFound : ClusterState :=
  { getApp := fun _ _ => .apiErr 404
    listDeployments := fun _ => .ok []
    listPods := fun _ _ => .ok []
    listExternalSecrets := fun _ => .ok [] }

/-- First demo pod. -/
def podA : Pod := { metadata := { name := "web-abc" } }

/-- Second demo pod. -/
def podB : Pod := { metadata := { name := "web-def" } }

/-- A cluster whose pod listing returns two pods for every selector. -/
def stTwoPods : ClusterState :=
  { stNotFound with listPods := fun _ _ => .ok [podA, podB] }

/-- A deployment whose tracking annotation matches app `app` in
namespace `ns`. -/
def deplDemo : Deployment :=
  { metadata :=
    { name := "web"
      annotations := some [("argocd.argoproj.io/tracking-id", "app:apps/Deployment:ns/web")] } }

/-- A cluster where listing the deployments of `ns` finds `deplDemo`. -/
def stWithDeployment : ClusterState :=
  { stNotFound with listDeployments := fun nsp => if nsp == "ns" then .ok [deplDemo] else .ok [] }

/-- An Application destined to namespace `prod`. -/
def appProd : ArgoApp :=
  { spec := some { destination := some { destNamespace := some "prod" }, sources := none } }

/-- A deployment tracked for app `app` in namespace `prod`. -/
def deplProd : Deployment :=
  { metadata :=
    { name := "web"
      annotations := some [("argocd.argoproj.io/tracking-id", "app:apps/Deployment:prod/web")] } }

/-- A cluster where `appProd` lives in `glueops-core` and the only
deployment lives in namespace `prod`. -/
def stProdDeployment : ClusterState :=
  { getApp := fun nsp _ => if nsp == "glueops-core" then .ok appProd else .apiErr 404
    listDeployments := fun nsp => if nsp == "prod" then .ok [deplProd] else .ok []
    listPods := fun _ _ => .ok []
    listExternalSecrets := fun _ => .ok [] }

/-- Like `stProdDeployment` but with no Application anywhere. -/
def stProdDeploymentNoApp : ClusterState :=
  { stProdDeployment with getApp := fun _ _ => .apiErr 404 }

/-! ### Claim theorems -/

/-- C1: the claim says every cache-miss links request builds a complete
`LinksResponse` (with both `generated_at` and `last_updated`) and
returns it to the client.  In fact the builder pipeline never returns a
`LinksResponse` at all: when a deployment is found it raises
`AttributeError` calling the undefined `K8sClient.get_pods`
(links_generator.py line 55), and otherwise the final
`LinksResponse(...)` call omits the required `last_updated` field and
pydantic raises a `ValidationError` (the model, moreover, declares no
top-level `generated_at` field). -/
theorem c1_generate_links_never_returns_response :
    (∀ (st : ClusterState) (cfg : GenCfg) (now : Nat) (app_name nsArg : String),
      generate_links st cfg now app_name nsArg = .error .attributeError ∨
        generate_links st cfg now app_name nsArg = .error .validationError) ∧
    generate_links stNotFound cfgDemo 0 "app" "ns" = .error .validationError := by
  constructor
  · intro st cfg now app_name nsArg
    unfold generate_links
    by_cases h : (get_deployment st app_name
      (targetNamespace (get_argocd_application st app_name nsArg) nsArg)).isSome
    · left
      simp [h]
    · right
      simp [h, linksResponseCall]
  · rfl

/-- C2: the claim (the spec's `get_pods` contract) says the pods lookup
returns the list of all pods matching
`app.kubernetes.io/name=<deployment_name>`, with `[]` when none match,
and that the Pod category links one pod each.  The code's only pods
lookup, `get_first_pod`, returns just the first matching pod (`None`
when none), and `generate_links` calls `self.k8s_client.get_pods`, an
attribute `K8sClient` does not define, so the request crashes with
`AttributeError` whenever a deployment is found. -/
theorem c2_pods_lookup_returns_single_pod :
    stTwoPods.listPods "ns" "app.kubernetes.io/name=web" = .ok [podA, podB] ∧
    get_first_pod stTwoPods "web" "ns" = some podA ∧
    podB ≠ podA ∧
    generate_links stWithDeployment cfgDemo 0 "app" "ns" = .error .attributeError := by
  refine ⟨rfl, rfl, by decide, rfl⟩

/-- C3: the claim says each readiness check reflects whether the
corresponding ping succeeded, so a failing cache ping with a healthy
cluster yields `ready=false, checks={cache:false, kubernetes:true}`.
The handler instead marks a check `True` whenever the `ping()` call
returns without raising and discards the returned boolean; both ping
wrappers catch their own failures and return a boolean, so every
readiness response is `ready=true` with both checks `true`. -/
theorem c3_readiness_checks_always_true :
    (∀ (cacheBackend : Except Unit Bool) (k8sApi : Except Unit Unit),
      readiness_check cacheBackend k8sApi =
        { ready := true, cacheCheck := true, kubernetesCheck := true }) ∧
    readiness_check (.error ()) (.ok ()) ≠
      { ready := false, cacheCheck := false, kubernetesCheck := true } := by
  refine ⟨fun _ _ => rfl, by decide⟩

/-- C4: the claim's first example fails on the code: the regex
alternative `-[a-z0-9]{4,6}` matches the `-prod` suffix, so
`extract_service_name "taco-backend-prod"` returns `"taco-backend"`,
not the claimed (and docstring-promised) `"taco-backend-prod"`.  The
second example behaves as claimed. -/
theorem c4_extract_service_name_strips_prod :
    extract_service_name "taco-backend-prod" = "taco-backend" ∧
    extract_service_name "taco-backend-prod" ≠ "taco-backend-prod" ∧
    extract_service_name "taco-backend-prod-677bfb55b7-942nr" = "taco-backend-prod" := by
  refine ⟨by decide, by decide, by decide⟩

/-- C7: the Application lookup probes `glueops-core`, `argocd`, then the
caller-supplied namespace, in that order, and returns the first hit; a
404 on a candidate namespace just moves on, any other `ApiException` is
logged and likewise treated as not-found for that namespace, and when no
candidate matches the lookup returns `None` without raising (the
embedding is a total function). -/
theorem c7_application_probe_order :
    ∀ (st : ClusterState) (name nsArg : String),
      (∀ a, st.getApp "glueops-core" name = .ok a →
        get_argocd_application st name nsArg = some a) ∧
      (∀ s a, st.getApp "glueops-core" name = .apiErr s →
        st.getApp "argocd" name = .ok a →
        get_argocd_application st name nsArg = some a) ∧
      (∀ s t a, st.getApp "glueops-core" name = .apiErr s →
        st.getApp "argocd" name = .apiErr t →
        st.getApp nsArg name = .ok a →
        get_argocd_application st name nsArg = some a) ∧
      (∀ s t u, st.getApp "glueops-core" name = .apiErr s →
        st.getApp "argocd" name = .apiErr t →
        st.getApp nsArg name = .apiErr u →
        get_argocd_application st name nsArg = none) := by
  intro st name nsArg
  refine ⟨?_, ?_, ?_, ?_⟩ <;> intros <;>
    simp_all [get_argocd_application, tryNamespaces]

/-- Witness for C7: the probe finds `appProd` in `glueops-core`, and
returns `None` when all three probes 404. -/
theorem c7_application_probe_order_witness :
    get_argocd_application stProdDeployment "app" "argo-ns" = some appProd ∧
    get_argocd_application stNotFound "app" "ns" = none := by
  constructor
  · exact (c7_application_probe_order stProdDeployment "app" "argo-ns").1 appProd rfl
  · exact (c7_application_probe_order stNotFound "app" "ns").2.2.2 404 404 404 rfl rfl rfl

/-- The pairwise equivalence claimed for every category output:
status not `ok`, message present, links empty. -/
def catInv (c : CategoryModel) : Prop :=
  ((c.status ≠ "ok") ↔ c.message ≠ none) ∧
  ((c.status ≠ "ok") ↔ c.links = []) ∧
  (c.message ≠ none ↔ c.links = [])

/-- A category with status `ok`, no message and nonempty links satisfies
the invariant. -/
theorem catInv_ok {c : CategoryModel} (hs : c.status = "ok")
    (hm : c.message = none) (hl : c.links ≠ []) : catInv c := by
  simp [catInv, hs, hm, hl]

/-- A category with a non-`ok` status, a message and empty links
satisfies the invariant. -/
theorem catInv_notOk {c : CategoryModel} (hs : c.status ≠ "ok")
    (hm : c.message ≠ none) (hl : c.links = []) : catInv c := by
  simp [catInv, hs, hm, hl]

/-- C5: every category produced by any of the eight builders satisfies
the pairwise equivalence of status not `ok`, message present, and links
empty. -/
theorem c5_category_status_invariant :
    ∀ (cfg : GenCfg) (service_name nsArg : String) (pods : List Pod)
      (external_secrets : List ExternalSecret) (argocd_app : Option ArgoApp)
      (c : CategoryModel),
      c ∈ [generate_quick_links_category cfg.captain_domain,
           generate_apm_category cfg service_name,
           generate_namespace_category cfg nsArg,
           generate_pod_category cfg pods nsArg,
           generate_logs_category cfg service_name,
           generate_traces_category cfg service_name,
           generate_vault_category cfg external_secrets,
           generate_iaac_category argocd_app] →
      catInv c := by
  intro cfg service_name nsArg pods external_secrets argocd_app c hc
  simp only [List.mem_cons, List.not_mem_nil, or_false] at hc
  rcases hc with rfl | rfl | rfl | rfl | rfl | rfl | rfl | rfl
  · exact catInv_ok rfl rfl (by simp [generate_quick_links_category])
  · exact catInv_ok rfl rfl (by simp [generate_apm_category])
  · exact catInv_ok rfl rfl (by simp [generate_namespace_category])
  · cases pods with
    | nil =>
      exact catInv_notOk (by simp [generate_pod_category])
        (by simp [generate_pod_category]) (by simp [generate_pod_category])
    | cons p ps =>
      exact catInv_ok (by simp [generate_pod_category])
        (by simp [generate_pod_category]) (by simp [generate_pod_category])
  · exact catInv_ok rfl rfl (by simp [generate_logs_category])
  · exact catInv_ok rfl rfl (by simp [generate_traces_category])
  · cases external_secrets with
    | nil =>
      exact catInv_notOk (by simp [generate_vault_category])
        (by simp [generate_vault_category]) (by simp [generate_vault_category])
    | cons e es =>
      rcases hvl : vaultLinks cfg.vault_base_url (e :: es) with _ | ⟨l, ls⟩
      · exact catInv_notOk (by simp [generate_vault_category, hvl])
          (by simp [generate_vault_category, hvl]) (by simp [generate_vault_category, hvl])
      · exact catInv_ok (by simp [generate_vault_category, hvl])
          (by simp [generate_vault_category, hvl]) (by simp [generate_vault_category, hvl])
  · cases argocd_app with
    | none =>
      exact catInv_notOk (by simp [generate_iaac_category])
        (by simp [generate_iaac_category]) (by simp [generate_iaac_category])
    | some app =>
      by_cases h : (!strTruthy (parse_github_repo_from_argocd_app app).1 ||
          !strTruthy (parse_github_repo_from_argocd_app app).2) = true
      · exact catInv_notOk (by simp [generate_iaac_category, h])
          (by simp [generate_iaac_category, h]) (by simp [generate_iaac_category, h])
      · exact catInv_ok (by simp [generate_iaac_category, h])
          (by simp [generate_iaac_category, h]) (by simp [generate_iaac_category, h])

/-- Witness for C5 at a concrete builder output. -/
theorem c5_category_status_invariant_witness :
    catInv (generate_quick_links_category cfgDemo.captain_domain) :=
  c5_category_status_invariant cfgDemo "svc" "ns" [] [] none _ (by simp)

/-- When `c` does not occur in `l`, splitting at `c` fails. -/
theorem splitAtFirst_eq_none {c : Char} {l : List Char} (h : c ∉ l) :
    splitAtFirst c l = none := by
  induction l with
  | nil => rfl
  | cons x xs ih =>
    simp only [List.mem_cons, not_or] at h
    have hx : (x == c) = false := beq_eq_false_iff_ne.mpr (fun e => h.1 e.symm)
    simp [splitAtFirst, hx, ih h.2]

/-- Splitting at the first `c` of `a ++ c :: b` with `c ∉ a` yields
`(a, b)`. -/
theorem splitAtFirst_append {c : Char} {a : List Char} (b : List Char) (h : c ∉ a) :
    splitAtFirst c (a ++ c :: b) = some (a, b) := by
  induction a with
  | nil => simp [splitAtFirst]
  | cons x xs ih =>
    simp only [List.mem_cons, not_or] at h
    have hx : (x == c) = false := beq_eq_false_iff_ne.mpr (fun e => h.1 e.symm)
    simp [splitAtFirst, hx, ih h.2]

/-- C6 counterexample: with mock mode enabled (`use_mock_data = true`),
a links request whose header has no `:` separator is not rejected with a
400 — the handler returns the configured fixture before any header
validation. -/
theorem c6_mock_mode_skips_validation :
    get_application_links true "all-ok" (fun _ => none) stNotFound cfgDemo 0 "app" "nocolon" =
      .mock "all-ok" ∧
    get_application_links true "all-ok" (fun _ => none) stNotFound cfgDemo 0 "app" "nocolon" ≠
      .httpError 400 := by
  exact ⟨rfl, by decide⟩

/-- C6 (amended): when mock mode is disabled, a header without `:`, or
one whose embedded app name (everything after the first `:`) differs
from the path parameter, is rejected with a 400 for *every* cache and
cluster oracle — so before any cache or cluster access — while a
well-formed matching header proceeds to the cache lookup (a hit is
returned). -/
theorem c6_header_validation :
    ∀ (default_mock_fixture : String) (cache : String → Option LinksResponse)
      (st : ClusterState) (cfg : GenCfg) (now : Nat) (app_name header : String),
      (':' ∉ header.data →
        get_application_links false default_mock_fixture cache st cfg now app_name header =
          .httpError 400) ∧
      (∀ nsChars appChars, splitAtFirst ':' header.data = some (nsChars, appChars) →
        String.mk appChars ≠ app_name →
        get_application_links false default_mock_fixture cache st cfg now app_name header =
          .httpError 400) ∧
      (∀ (nsArg : String) (v : LinksResponse), ':' ∉ nsArg.data →
        cache (cacheKey nsArg app_name) = some v →
        get_application_links false default_mock_fixture cache st cfg now app_name
          (nsArg ++ ":" ++ app_name) = .cached v) := by
  intro dflt cache st cfg now app_name header
  refine ⟨?_, ?_, ?_⟩
  · intro h
    simp [get_application_links, splitAtFirst_eq_none h]
  · intro nsChars appChars hsplit hne
    have hne2 : app_name ≠ String.mk appChars := fun e => hne e.symm
    simp [get_application_links, hsplit, hne2]
  · intro nsArg v hns hcache
    have hdata : (nsArg ++ ":" ++ app_name).data = nsArg.data ++ ':' :: app_name.data := by
      simp [String.data_append]
    simp [get_application_links, hdata, splitAtFirst_append _ hns, hcache]

/-- A stored response used to exercise the cache-hit path. -/
def respDemo : LinksResponse :=
  { app_name := "app"
    nsName := "ns"
    service_name := "app"
    last_updated := 0
    categories := []
    metadata :=
      { generated_at := 0
        version := "v1"
        resources :=
          { argocd_app := false, deployment := false, pods_found := 0,
            external_secrets_found := 0 } } }

/-- A cache holding `respDemo` under the key for `(ns, app)`. -/
def cacheDemo : String → Option LinksResponse :=
  fun k => if k == "gluelinks:v1:ns:app" then some respDemo else none

/-- Witness for C6 (amended) at the three concrete header shapes. -/
theorem c6_header_validation_witness :
    get_application_links false "all-ok" (fun _ => none) stNotFound cfgDemo 0 "app" "nocolon" =
      .httpError 400 ∧
    get_application_links false "all-ok" (fun _ => none) stNotFound cfgDemo 0 "app" "ns:other" =
      .httpError 400 ∧
    get_application_links false "all-ok" cacheDemo stNotFound cfgDemo 0 "app" "ns:app" =
      .cached respDemo := by
  refine ⟨?_, ?_, ?_⟩
  · exact (c6_header_validation "all-ok" (fun _ => none) stNotFound cfgDemo 0
      "app" "nocolon").1 (by decide)
  · exact (c6_header_validation "all-ok" (fun _ => none) stNotFound cfgDemo 0
      "app" "ns:other").2.1 "ns".data "other".data (by decide) (by decide)
  · exact (c6_header_validation "all-ok" cacheDemo stNotFound cfgDemo 0
      "app" "unused").2.2 "ns" respDemo (by decide) (by decide)

/-- Claim-side reading of one key's contribution to the Vault category:
the remainder after the first `/` when the key contains a `/`, nothing
otherwise. -/
def pathOfKey (key : String) : List String :=
  match splitAtFirst '/' key.data with
  | some (_, rest) => [String.mk rest]
  | none => []

/-- Claim-side reading of the Vault extraction over all matched
ExternalSecrets: one path per `dataFrom[].extract.key` containing a
`/`. -/
def extractedVaultPaths (external_secrets : List ExternalSecret) : List String :=
  external_secrets.flatMap (fun secret =>
    ((secret.spec.bind (fun sp => sp.dataFrom)).getD []).flatMap (fun data_source =>
      pathOfKey ((data_source.extract.bind (fun e => e.key)).getD "")))

/-- Each key contributes exactly the links of its extracted paths. -/
theorem vaultLinkOfKey_eq (base key : String) :
    vaultLinkOfKey base key = (pathOfKey key).map
      (fun p =>
        { label := p, url := base ++ "/ui/vault/secrets/secret/show/" ++ p }) := by
  rcases hsp : splitAtFirst '/' key.data with _ | ⟨a, b⟩
  · have hks : pySplit1 '/' key = [key] := by simp [pySplit1, hsp]
    by_cases hk : (key == "") = true
    · simp [vaultLinkOfKey, pathOfKey, hk, hsp]
    · simp [vaultLinkOfKey, pathOfKey, hk, hks, hsp]
  · have hk : key ≠ "" := by
      intro e
      rw [e] at hsp
      exact absurd hsp (by simp [splitAtFirst])
    have hks : pySplit1 '/' key = [String.mk a, String.mk b] := by simp [pySplit1, hsp]
    simp [vaultLinkOfKey, pathOfKey, beq_eq_false_iff_ne.mpr hk, hks, hsp]

/-- The Vault links are exactly the extracted paths, templated. -/
theorem vaultLinks_eq (base : String) (secrets : List ExternalSecret) :
    vaultLinks base secrets = (extractedVaultPaths secrets).map
      (fun p =>
        { label := p, url := base ++ "/ui/vault/secrets/secret/show/" ++ p }) := by
  simp [vaultLinks, extractedVaultPaths, vaultLinkOfKey_eq, List.map_flatMap]

/-- C9: the Vault category is `empty` when no ExternalSecrets matched,
and when the matched secrets yield no extractable path; otherwise it is
`ok` with exactly one link per `dataFrom[].extract.key` containing a
`/`, whose path is the remainder of the key after the first `/`. -/
theorem c9_vault_category_shape :
    ∀ (cfg : GenCfg) (external_secrets : List ExternalSecret),
      (external_secrets = [] →
        (generate_vault_category cfg external_secrets).status = "empty") ∧
      (extractedVaultPaths external_secrets = [] →
        (generate_vault_category cfg external_secrets).status = "empty") ∧
      (extractedVaultPaths external_secrets ≠ [] →
        (generate_vault_category cfg external_secrets).status = "ok" ∧
        (generate_vault_category cfg external_secrets).links =
          (extractedVaultPaths external_secrets).map (fun p =>
            { label := p,
              url := cfg.vault_base_url ++ "/ui/vault/secrets/secret/show/" ++ p })) := by
  intro cfg secrets
  refine ⟨?_, ?_, ?_⟩
  · intro h
    subst h
    rfl
  · intro h
    cases secrets with
    | nil => rfl
    | cons s ss =>
      have hv : vaultLinks cfg.vault_base_url (s :: ss) = [] := by
        rw [vaultLinks_eq, h]
        rfl
      simp [generate_vault_category, hv]
  · intro h
    cases secrets with
    | nil => exact absurd rfl h
    | cons s ss =>
      have hne : vaultLinks cfg.vault_base_url (s :: ss) ≠ [] := by
        rw [vaultLinks_eq]
        simpa using h
      have hie : (vaultLinks cfg.vault_base_url (s :: ss)).isEmpty = false := by
        rcases hvl : vaultLinks cfg.vault_base_url (s :: ss) with _ | ⟨l, ls⟩
        · exact absurd hvl hne
        · rfl
      exact ⟨by simp [generate_vault_category, hie],
        by simp [generate_vault_category, hie, vaultLinks_eq, h]⟩

/-- An ExternalSecret extracting the key `secret/postgres-details`. -/
def esDemo : ExternalSecret :=
  { metadata := none
    spec := some { dataFrom := some [{ extract := some { key := some "secret/postgres-details" } }] } }

/-- Witness for C9: no secrets gives `empty`; the demo secret gives `ok`
with the single link path `postgres-details`. -/
theorem c9_vault_category_shape_witness :
    (generate_vault_category cfgDemo []).status = "empty" ∧
    (generate_vault_category cfgDemo [esDemo]).status = "ok" ∧
    (generate_vault_category cfgDemo [esDemo]).links =
      [{ label := "postgres-details",
         url := "https://vault.example.com/ui/vault/secrets/secret/show/postgres-details" }] := by
  refine ⟨(c9_vault_category_shape cfgDemo []).1 rfl, ?_, ?_⟩
  · exact ((c9_vault_category_shape cfgDemo [esDemo]).2.2 (by decide)).1
  · have h := ((c9_vault_category_shape cfgDemo [esDemo]).2.2 (by decide)).2
    rw [h]
    decide

/-- Cons form of `List.findIdx?` without the start-index accumulator. -/
theorem findIdx?_cons_form {α : Type} (p : α → Bool) (x : α) (xs : List α) :
    (x :: xs).findIdx? p = if p x then some 0 else (xs.findIdx? p).map fun i => i + 1 := by
  rw [List.findIdx?_cons]
  congr 1
  exact List.findIdx?_succ

/-- Splitting on a separator never yields the empty list of parts. -/
theorem splitChar_ne_nil (c : Char) (l : List Char) : splitChar c l ≠ [] := by
  cases l with
  | nil => simp [splitChar]
  | cons x xs =>
    by_cases h : (x == c) = true
    · simp [splitChar, h]
    · rcases hs : splitChar c xs with _ | ⟨hd, tl⟩ <;> simp [splitChar, h, hs]

/-- Inversion for `startsWithL` on a cons pattern. -/
theorem startsWithL_cons_inv {l : List Char} {b : Char} {bs : List Char}
    (h : startsWithL l (b :: bs) = true) :
    ∃ t, l = b :: t ∧ startsWithL t bs = true := by
  cases l with
  | nil => exact absurd h (by simp [startsWithL])
  | cons a as =>
    simp only [startsWithL, Bool.and_eq_true] at h
    exact ⟨as, by rw [eq_of_beq h.1], h.2⟩

/-- A character list containing the substring `/apps/` splits (on `/`)
into parts with an `apps` component at some position `i ≥ 1` that has a
successor. -/
theorem exists_apps_component {l : List Char}
    (h : containsSub "/apps/".data l = true) :
    ∃ i, 1 ≤ i ∧ (splitChar '/' l)[i]? = some ['a', 'p', 'p', 's'] ∧
      i + 1 < (splitChar '/' l).length := by
  induction l with
  | nil => exact absurd h (by decide)
  | cons x xs ih =>
    simp only [containsSub, Bool.or_eq_true] at h
    rcases h with h1 | h2
    · obtain ⟨t1, e1, hh1⟩ := startsWithL_cons_inv h1
      injection e1 with ex et
      subst ex
      subst et
      obtain ⟨t2, e2, hh2⟩ := startsWithL_cons_inv hh1
      subst e2
      obtain ⟨t3, e3, hh3⟩ := startsWithL_cons_inv hh2
      subst e3
      obtain ⟨t4, e4, hh4⟩ := startsWithL_cons_inv hh3
      subst e4
      obtain ⟨t5, e5, hh5⟩ := startsWithL_cons_inv hh4
      subst e5
      obtain ⟨t6, e6, _⟩ := startsWithL_cons_inv hh5
      subst e6
      have hlen : 0 < (splitChar '/' t6).length :=
        List.length_pos.mpr (splitChar_ne_nil '/' t6)
      refine ⟨1, le_refl 1, ?_, ?_⟩
      · simp [splitChar]
      · simp [splitChar]
        omega
    · obtain ⟨i, h1i, hget, hlen⟩ := ih h2
      by_cases hx : (x == '/') = true
      · refine ⟨i + 1, by omega, ?_, ?_⟩
        · simp [splitChar, hx, hget]
        · simp [splitChar, hx]
          omega
      · rcases hs : splitChar '/' xs with _ | ⟨hd, tl⟩
        · exact absurd hs (splitChar_ne_nil _ _)
        · rw [hs] at hget hlen
          obtain ⟨j, rfl⟩ : ∃ j, i = j + 1 := ⟨i - 1, by omega⟩
          have hget2 : tl[j]? = some ['a', 'p', 'p', 's'] := by simpa using hget
          refine ⟨j + 1, by omega, ?_, ?_⟩
          · simpa [splitChar, hx, hs] using hget2
          · have : j + 1 + 1 < (hd :: tl).length := hlen
            simp at this
            simp [splitChar, hx, hs]
            omega

/-- When some component `apps` has a successor, the `apps`-index lookup
of `parse_github_repo_from_argocd_app` succeeds. -/
theorem appsNext_of_exists {parts : List String}
    (h : ∃ i, parts[i]? = some "apps" ∧ i + 1 < parts.length) :
    ∃ nm, appsNext? parts = some nm := by
  induction parts with
  | nil =>
    rcases h with ⟨i, hi, _⟩
    simp at hi
  | cons p ps ih =>
    rcases h with ⟨i, hget, hlen⟩
    by_cases hp : (p == "apps") = true
    · have hlen2 : 0 < ps.length := by
        simp at hlen
        omega
      rcases ps with _ | ⟨q, qs⟩
      · simp at hlen2
      · exact ⟨q, by simp [appsNext?, findIdx?_cons_form, hp]⟩
    · cases i with
      | zero =>
        simp at hget
        subst hget
        exact absurd (by decide) hp
      | succ j =>
        obtain ⟨nm, hnm⟩ := ih ⟨j, by simpa using hget, by simp at hlen ⊢; omega⟩
        refine ⟨nm, ?_⟩
        simp only [appsNext?] at hnm ⊢
        rcases hk : ps.findIdx? (fun q => q == "apps") with _ | k
        · rw [hk] at hnm
          exact Option.noConfusion hnm
        · rw [hk] at hnm
          simp [findIdx?_cons_form, hp, hk]
          exact hnm

/-- Totality of the `apps`-component extraction for a file that contains
the substring `/apps/`. -/
theorem appsNext_total {vf : String} (h : strContains vf "/apps/" = true) :
    ∃ nm, appsNext? (pySplitAll '/' vf) = some nm := by
  obtain ⟨i, _, hget, hlen⟩ := exists_apps_component (l := vf.data) h
  apply appsNext_of_exists
  refine ⟨i, ?_, ?_⟩
  · simp [pySplitAll, List.getElem?_map, hget]
  · simpa [pySplitAll] using hlen

/-- When no value file passes the `/apps/`-and-`/base/` filter, the scan
falls through to `(None, None)`. -/
theorem scanValueFiles_of_none (r : String) {vfs : List String}
    (h : ∀ vf ∈ vfs, (strContains vf "/apps/" && strContains vf "/base/") = false) :
    scanValueFiles r vfs = (none, none) := by
  induction vfs with
  | nil => rfl
  | cons v vs ih =>
    have hv := h v (List.mem_cons_self v vs)
    simp [scanValueFiles, hv, ih (fun f hf => h f (List.mem_cons_of_mem _ hf))]

/-- The scan succeeds on the first value file passing the filter, when
its `apps` component has a successor. -/
theorem scanValueFiles_of_found (r : String) {vfs : List String} {vf : String}
    (hfind : vfs.find? (fun f => strContains f "/apps/" && strContains f "/base/") = some vf)
    {nm : String} (hnm : appsNext? (pySplitAll '/' vf) = some nm) :
    scanValueFiles r vfs = (some r, some ("apps/" ++ nm)) := by
  induction vfs with
  | nil => simp at hfind
  | cons v vs ih =>
    by_cases hc : (strContains v "/apps/" && strContains v "/base/") = true
    · have hfv : List.find? (fun f => strContains f "/apps/" && strContains f "/base/")
          (v :: vs) = some v := List.find?_cons_of_pos _ hc
      rw [hfv] at hfind
      have hv : v = vf := by simpa using hfind
      subst hv
      simp [scanValueFiles, hc, hnm]
    · have hfv : List.find? (fun f => strContains f "/apps/" && strContains f "/base/")
          (v :: vs) = List.find? (fun f => strContains f "/apps/" && strContains f "/base/")
          vs := List.find?_cons_of_neg _ hc
      rw [hfv] at hfind
      have hcf : (strContains v "/apps/" && strContains v "/base/") = false := by
        simpa using hc
      simp [scanValueFiles, hcf]
      exact ih hfind

/-- A `ref: values` source carrying no `repoURL`. -/
def srcValuesNoURL : AppSource :=
  { ref := some "values", repoURL := none, targetRevision := none, helm := none }

/-- A Helm source whose `valueFiles` contains an `apps/<name>/base/`
path. -/
def srcHelmDemo : AppSource :=
  { ref := none, repoURL := none, targetRevision := none,
    helm := some { valueFiles := some ["$values/apps/taco/base/base-values.yaml"] } }

/-- An Application passing all three of the claim's conditions yet
carrying no `repoURL` on its values source. -/
def appNoRepoURL : ArgoApp :=
  { spec := some { destination := none, sources := some [srcValuesNoURL, srcHelmDemo] } }

/-- C8 counterexample: `appNoRepoURL` has a `ref: values` source, a Helm
source with `valueFiles`, and a value file containing both `/apps/` and
`/base/` — none of the claim's three failure cases — yet the parse
still returns `(None, None)`, because the values source's `repoURL` is
missing (falsy). -/
theorem c8_missing_repourl_counterexample :
    parse_github_repo_from_argocd_app appNoRepoURL = (none, none) ∧
    (∃ s ∈ (appNoRepoURL.spec.bind (fun sp => sp.sources)).getD [],
      s.ref = some "values") ∧
    (∃ s ∈ (appNoRepoURL.spec.bind (fun sp => sp.sources)).getD [],
      ∃ h, s.helm = some h ∧ h.valueFiles.isSome = true) ∧
    (∃ s ∈ (appNoRepoURL.spec.bind (fun sp => sp.sources)).getD [],
      ∃ h vfs, s.helm = some h ∧ h.valueFiles = some vfs ∧
        ∃ vf ∈ vfs, strContains vf "/apps/" = true ∧ strContains vf "/base/" = true) := by
  refine ⟨rfl, ?_, ?_, ?_⟩
  · exact ⟨srcValuesNoURL, List.mem_cons_self _ _, rfl⟩
  · exact ⟨srcHelmDemo, List.mem_cons_of_mem _ (List.mem_cons_self _ _),
      { valueFiles := some ["$values/apps/taco/base/base-values.yaml"] }, rfl, rfl⟩
  · exact ⟨srcHelmDemo, List.mem_cons_of_mem _ (List.mem_cons_self _ _),
      { valueFiles := some ["$values/apps/taco/base/base-values.yaml"] },
      ["$values/apps/taco/base/base-values.yaml"], rfl, rfl,
      "$values/apps/taco/base/base-values.yaml", List.mem_cons_self _ _,
      by decide, by decide⟩

/-- C8 (amended): `parse_source_repo` returns `(None, None)` in the
three claimed failure cases and also when the first `ref == "values"`
source carries a missing or empty `repoURL`; otherwise it returns that
source's `repoURL` together with `app_path = "apps/<name>"`, `<name>`
being the component following `apps` in the first value file (of the
first Helm source carrying `valueFiles`) that contains both `/apps/`
and `/base/`. -/
theorem c8_parse_source_repo :
    ∀ (app : ArgoApp),
      (((app.spec.bind (fun sp => sp.sources)).getD []).find?
          (fun s => s.ref == some "values") = none →
        parse_github_repo_from_argocd_app app = (none, none)) ∧
      (∀ s0, ((app.spec.bind (fun sp => sp.sources)).getD []).find?
          (fun s => s.ref == some "values") = some s0 →
        strTruthy s0.repoURL = false →
        parse_github_repo_from_argocd_app app = (none, none)) ∧
      (((app.spec.bind (fun sp => sp.sources)).getD []).find?
          (fun s => (s.helm.map (fun h => h.valueFiles.isSome)).getD false) = none →
        parse_github_repo_from_argocd_app app = (none, none)) ∧
      (∀ hs, ((app.spec.bind (fun sp => sp.sources)).getD []).find?
          (fun s => (s.helm.map (fun h => h.valueFiles.isSome)).getD false) = some hs →
        (∀ vf ∈ (hs.helm.bind (fun h => h.valueFiles)).getD [],
          (strContains vf "/apps/" && strContains vf "/base/") = false) →
        parse_github_repo_from_argocd_app app = (none, none)) ∧
      (∀ s0 r hs vf,
        ((app.spec.bind (fun sp => sp.sources)).getD []).find?
          (fun s => s.ref == some "values") = some s0 →
        s0.repoURL = some r → r ≠ "" →
        ((app.spec.bind (fun sp => sp.sources)).getD []).find?
          (fun s => (s.helm.map (fun h => h.valueFiles.isSome)).getD false) = some hs →
        ((hs.helm.bind (fun h => h.valueFiles)).getD []).find?
          (fun f => strContains f "/apps/" && strContains f "/base/") = some vf →
        ∃ nm, appsNext? (pySplitAll '/' vf) = some nm ∧
          parse_github_repo_from_argocd_app app = (some r, some ("apps/" ++ nm))) := by
  intro app
  refine ⟨?_, ?_, ?_, ?_, ?_⟩
  · intro h
    simp [parse_github_repo_from_argocd_app, h]
  · intro s0 h1 h2
    rcases hr : s0.repoURL with _ | r
    · simp [parse_github_repo_from_argocd_app, h1, hr]
    · have he : r = "" := by simpa [strTruthy, hr] using h2
      subst he
      simp [parse_github_repo_from_argocd_app, h1, hr]
  · intro h
    rcases hv : ((app.spec.bind (fun sp => sp.sources)).getD []).find?
        (fun s => s.ref == some "values") with _ | s0
    · simp [parse_github_repo_from_argocd_app, hv]
    · rcases hr : s0.repoURL with _ | r
      · simp [parse_github_repo_from_argocd_app, hv, hr]
      · by_cases hre : r = ""
        · subst hre
          simp [parse_github_repo_from_argocd_app, hv, hr]
        · simp [parse_github_repo_from_argocd_app, hv, hr, hre, h]
  · intro hs h1 h2
    rcases hv : ((app.spec.bind (fun sp => sp.sources)).getD []).find?
        (fun s => s.ref == some "values") with _ | s0
    · simp [parse_github_repo_from_argocd_app, hv]
    · rcases hr : s0.repoURL with _ | r
      · simp [parse_github_repo_from_argocd_app, hv, hr]
      · by_cases hre : r = ""
        · subst hre
          simp [parse_github_repo_from_argocd_app, hv, hr]
        · have hscan := scanValueFiles_of_none r h2
          simp [parse_github_repo_from_argocd_app, hv, hr, hre, h1, hscan]
  · intro s0 r hs vf h1 h2 h3 h4 h5
    have hboth := List.find?_some h5
    have happs : strContains vf "/apps/" = true := ((Bool.and_eq_true _ _).mp hboth).1
    obtain ⟨nm, hnm⟩ := appsNext_total happs
    refine ⟨nm, hnm, ?_⟩
    have hscan := scanValueFiles_of_found r h5 hnm
    simp [parse_github_repo_from_argocd_app, h1, h2, h3, h4, hscan]

/-- A `ref: values` source with a nonempty `repoURL`. -/
def srcValuesDemo : AppSource :=
  { ref := some "values", repoURL := some "https://github.com/org/deployments",
    targetRevision := some "main", helm := none }

/-- An Application the resolver parses successfully. -/
def appParsableDemo : ArgoApp :=
  { spec := some { destination := none, sources := some [srcValuesDemo, srcHelmDemo] } }

/-- Witness for C8 (amended): the demo Application parses to its
`repoURL` and `apps/taco`; an Application with no spec parses to
`(None, None)`. -/
theorem c8_parse_source_repo_witness :
    parse_github_repo_from_argocd_app appParsableDemo =
      (some "https://github.com/org/deployments", some "apps/taco") ∧
    parse_github_repo_from_argocd_app { spec := none } = (none, none) := by
  constructor
  · obtain ⟨nm, hnm, heq⟩ := (c8_parse_source_repo appParsableDemo).2.2.2.2 srcValuesDemo
      "https://github.com/org/deployments" srcHelmDemo
      "$values/apps/taco/base/base-values.yaml" (by decide) rfl (by decide) (by decide)
      (by decide)
    have h2 : appsNext? (pySplitAll '/' "$values/apps/taco/base/base-values.yaml") =
        some "taco" := by decide
    rw [hnm] at h2
    injection h2 with h3
    rw [h3] at heq
    rw [heq]
    decide
  · exact (c8_parse_source_repo { spec := none }).1 rfl

/-- C10: lines 44-48 of `generate_links` select the Application's
`spec.destination.namespace` when present and the caller-supplied
namespace otherwise, and the deployment lookup runs in that target
namespace — observable because a deployment present only in `prod`
makes the pipeline die at the missing `get_pods` (`AttributeError`)
exactly when the Application is destined to `prod`, while with no
Application the lookup in the caller's namespace finds nothing and the
pipeline dies later, in the `LinksResponse` construction
(`ValidationError`).  Because of those two bugs no `LinksResponse` is
ever returned, so the claim's statement about the returned response's
`namespace` field is never realized at runtime (the construction's
`namespace` argument is `target_namespace`, as claimed). -/
theorem c10_target_namespace_selection :
    (∀ (nsArg d : String) (app : ArgoApp),
      (app.spec.bind (fun sp => sp.destination)).bind (fun de => de.destNamespace) = some d →
      targetNamespace (some app) nsArg = d) ∧
    (∀ (nsArg : String) (app : ArgoApp),
      (app.spec.bind (fun sp => sp.destination)).bind (fun de => de.destNamespace) = none →
      targetNamespace (some app) nsArg = nsArg) ∧
    (∀ nsArg, targetNamespace none nsArg = nsArg) ∧
    generate_links stProdDeployment cfgDemo 0 "app" "argo-ns" = .error .attributeError ∧
    generate_links stProdDeploymentNoApp cfgDemo 0 "app" "argo-ns" = .error .validationError := by
  refine ⟨?_, ?_, fun _ => rfl, rfl, rfl⟩
  · intro nsArg d app h
    simp [targetNamespace, h]
  · intro nsArg app h
    simp [targetNamespace, h]

/-- Witness for C10: the destination namespace wins when present, the
caller's namespace otherwise. -/
theorem c10_target_namespace_selection_witness :
    targetNamespace (some appProd) "argo-ns" = "prod" ∧
    targetNamespace (some { spec := none }) "argo-ns" = "argo-ns" := by
  constructor
  · exact c10_target_namespace_selection.1 "argo-ns" "prod" appProd rfl
  · exact c10_target_namespace_selection.2.1 "argo-ns" { spec := none } rfl

end GlueLinks
